import Mathlib

/-
  Verification development for the usage metering and quota enforcement
  subsystem of the mailmates backend (src/services/usageTrackerService.ts).

  The source file contains two historical storage layouts of the same
  tracker: an array of per-period records embedded in the user document
  (first half of the file) and one document per (userId, periodKey) in a
  subcollection (second half).  Both are embedded below.  JavaScript Date
  values are modelled as epoch milliseconds (Int); the UTC calendar
  conversion performed by the JS runtime (getUTCFullYear, getUTCMonth,
  Date.UTC) is embedded with the standard civil calendar algorithm.
  Counts are modelled as Int, since nothing in the dynamically typed
  source prevents a stored document from carrying arbitrary numbers.
  The transactional document store is modelled as a function from keys to
  optional documents; each runTransaction body executes atomically, which
  is exactly the serializability contract the store provides.
-/

namespace MailMates

/-! ## Calendar arithmetic (the JS runtime part of Date) -/

/-- Days since 1970-01-01 to (year, month 1..12, day); standard civil
calendar algorithm, as performed by the JS engine for Date.UTC. -/
def daysFromCivil (y m d : Int) : Int :=
  let y2 := if m ≤ 2 then y - 1 else y
  let era := Int.fdiv y2 400
  let yoe := y2 - era * 400
  let mp := if m > 2 then m - 3 else m + 9
  let doy := (153 * mp + 2) / 5 + d - 1
  let doe := yoe * 365 + yoe / 4 - yoe / 100 + doy
  era * 146097 + doe - 719468

/-- Inverse conversion: days since 1970-01-01 to (year, month 1..12, day). -/
def civilFromDays (z0 : Int) : Int × Int × Int :=
  let z := z0 + 719468
  let era := Int.fdiv z 146097
  let doe := z - era * 146097
  let yoe := (doe - doe / 1460 + doe / 36524 - doe / 146096) / 365
  let y := yoe + era * 400
  let doy := doe - (365 * yoe + yoe / 4 - yoe / 100)
  let mp := (5 * doy + 2) / 153
  let d := doy - (153 * mp + 2) / 5 + 1
  let m := if mp < 10 then mp + 3 else mp - 9
  (if m ≤ 2 then y + 1 else y, m, d)

/-- JS date.getUTCFullYear() on an epoch-milliseconds value. -/
def getUTCFullYear (ms : Int) : Int :=
  (civilFromDays (Int.fdiv ms 86400000)).1

/-- JS date.getUTCMonth() on an epoch-milliseconds value (0-based month). -/
def getUTCMonth (ms : Int) : Int :=
  (civilFromDays (Int.fdiv ms 86400000)).2.1 - 1

/-- JS Date.UTC(year, monthIndex, day, 0, 0, 0, 0): monthIndex is 0-based
and may overflow into the next year, as used by getNextMonthlyReset. -/
def dateUTC (year monthIndex day : Int) : Int :=
  let y := year + Int.fdiv monthIndex 12
  let m := Int.emod monthIndex 12
  daysFromCivil y (m + 1) day * 86400000

/-! ## Pure helpers of usageTrackerService.ts -/

/-- JS String.prototype.padStart(2, "0") as used on the month component. -/
def padStartTwoZero (s : String) : String :=
  if s.length ≥ 2 then s else String.mk (List.replicate (2 - s.length) '0') ++ s

/-- formatPeriodKey: UTC year and 1-based zero-padded month as YYYY-MM. -/
def formatPeriodKey (date : Int) : String :=
  let year := getUTCFullYear date
  let month := padStartTwoZero (toString (getUTCMonth date + 1))
  toString year ++ "-" ++ month

/-- getNextMonthlyReset: first instant of the UTC month after date. -/
def getNextMonthlyReset (date : Int) : Int :=
  dateUTC (getUTCFullYear date) (getUTCMonth date + 1) 1

inductive PlanType where
  | free
  | pro
  | unlimited
deriving DecidableEq

inductive UsageTier where
  | basic
  | advanced
deriving DecidableEq

inductive ResetReason where
  | monthly
  | subscription
deriving DecidableEq

/-- The per-plan limit record: number | null for each tier. -/
structure PlanLimitPair where
  basic : Option Int
  advanced : Option Int
deriving DecidableEq

/-- PLAN_LIMITS: static catalog mapping each plan to its tier limits. -/
def PLAN_LIMITS : PlanType → PlanLimitPair
  | PlanType.free => { basic := some 20, advanced := some 0 }
  | PlanType.pro => { basic := some 5000, advanced := some 200 }
  | PlanType.unlimited => { basic := some 12000, advanced := some 1600 }

/-- JS planLimits[tier] dynamic indexing. -/
def PlanLimitPair.limitFor (pl : PlanLimitPair) : UsageTier → Option Int
  | UsageTier.basic => pl.basic
  | UsageTier.advanced => pl.advanced

/-- BASIC_MODELS set from the source (Set.has is list membership). -/
def BASIC_MODELS : List String :=
  ["gpt-4o-mini", "gpt-4o mini", "gpt-4o", "gpt-5-mini", "gpt-5 mini",
   "gpt-5-nano", "gpt-5 nano", "default"]

/-- ADVANCED_MODELS set from the source. -/
def ADVANCED_MODELS : List String :=
  ["gpt-5", "gpt5", "claude-4", "claude 4", "claude-3.5", "claude-3.5-sonnet",
   "claude", "gemini-2.5-pro", "gemini 2.5 pro", "gemini-2.0", "gemini",
   "llama-3.1", "llama", "deepseek-v3", "deepseek"]

/-- JS String.prototype.toLowerCase, characterwise (the identifiers the
service compares are ASCII, where this agrees with the JS semantics). -/
def jsToLower (s : String) : String :=
  String.mk (s.data.map Char.toLower)

/-- resolvePlanType: case-insensitive switch on the lowercased plan string;
null and empty inputs fall through to free (JS planType || empty string). -/
def resolvePlanType (planType : Option String) : PlanType :=
  let normalized := jsToLower (planType.getD "")
  if normalized = "pro" then PlanType.pro
  else if normalized = "unlimited" then PlanType.unlimited
  else PlanType.free

/-- resolveUsageTier: case-insensitive membership in the two model sets;
anything unknown defaults to advanced. -/
def resolveUsageTier (model : Option String) : UsageTier :=
  let normalized := jsToLower (model.getD "")
  if BASIC_MODELS.contains normalized then UsageTier.basic
  else if ADVANCED_MODELS.contains normalized then UsageTier.advanced
  else UsageTier.advanced

/-- Persisted counter record.  Date-valued fields are optional because a
stored document may lack them; normalizeDate supplies the fallback. -/
structure UsageCounterDoc where
  userId : String
  periodKey : String
  planType : PlanType
  basicCount : Int
  advancedCount : Int
  updatedAt : Option Int
  lastResetAt : Option Int
  lastResetReason : Option ResetReason
deriving DecidableEq

/-- normalizeDate: a present Date value is truthy and returned as is; an
absent field yields the fallback.  (The Firestore Timestamp and string
branches of the source concern wire formats outside the typed store.) -/
def normalizeDate (value : Option Int) (fallback : Int) : Int :=
  match value with
  | none => fallback
  | some d => d

/-- buildCounterSkeleton: fresh zeroed counter stamped with now. -/
def buildCounterSkeleton (userId : String) (planType : PlanType) (now : Int) :
    UsageCounterDoc :=
  { userId := userId
    periodKey := formatPeriodKey now
    planType := planType
    basicCount := 0
    advancedCount := 0
    updatedAt := some now
    lastResetAt := some now
    lastResetReason := some ResetReason.monthly }

/-- computeRemaining: Math.max(limit - usage, 0), or null if unlimited. -/
def computeRemaining (limit : Option Int) (usage : Int) : Option Int :=
  match limit with
  | none => none
  | some l => some (max (l - usage) 0)

structure UsageCounts where
  basic : Int
  advanced : Int
deriving DecidableEq

structure UsageConsumptionResult where
  allowed : Bool
  tier : UsageTier
  planType : PlanType
  limit : Option Int
  remaining : Option Int
  counts : UsageCounts
  resetsOn : Int
deriving DecidableEq

structure UsageSummary where
  planType : PlanType
  periodKey : String
  counts : UsageCounts
  limits : PlanLimitPair
  remaining : PlanLimitPair
  lastResetAt : Option Int
  lastResetReason : Option ResetReason
  resetsOn : Int
deriving DecidableEq

/-! ## Subcollection layout: one document per (userId, periodKey) -/

/-- The usageRecords subcollection across all users: a document per
(userId, periodKey).  Each transaction body below runs atomically, which
is the serializability guarantee of the document store. -/
abbrev SubStore := String → String → Option UsageCounterDoc

/-- tx.set(docRef, counter, merge) with every field present: upsert. -/
def SubStore.write (s : SubStore) (userId periodKey : String)
    (doc : UsageCounterDoc) : SubStore :=
  fun u pk => if u = userId ∧ pk = periodKey then some doc else s u pk

/-- The ternary currentUsage selector in consumeUsage. -/
def tierCount (c : UsageCounterDoc) : UsageTier → Int
  | UsageTier.basic => c.basicCount
  | UsageTier.advanced => c.advancedCount

/-- The count for a tier as stored (0 when no document exists). -/
def storedTierCount (s : SubStore) (userId periodKey : String)
    (tier : UsageTier) : Int :=
  match s userId periodKey with
  | none => 0
  | some c => tierCount c tier

/-- The boolean guard: limit !== null && currentUsage >= limit. -/
def limitReached (limit : Option Int) (currentUsage : Int) : Bool :=
  match limit with
  | none => false
  | some l => decide (l ≤ currentUsage)

/-- Load-or-initialize step of the consumeUsage transaction body:
an existing document is merged with the request context, otherwise a
zeroed skeleton is synthesized. -/
def loadOrInitCounter (s : SubStore) (userId : String) (plan : PlanType)
    (now : Int) : UsageCounterDoc :=
  let periodKey := formatPeriodKey now
  match s userId periodKey with
  | some data =>
      { data with
        periodKey := periodKey
        userId := userId
        planType := plan
        updatedAt := some (normalizeDate data.updatedAt now)
        lastResetAt := some (normalizeDate data.lastResetAt now) }
  | none => { buildCounterSkeleton userId plan now with periodKey := periodKey }

/-- The in-place count mutation plus updatedAt stamp on the allow path. -/
def bumpCounter (c : UsageCounterDoc) (tier : UsageTier) (updatedUsage : Int)
    (now : Int) : UsageCounterDoc :=
  let c2 :=
    match tier with
    | UsageTier.basic => { c with basicCount := updatedUsage }
    | UsageTier.advanced => { c with advancedCount := updatedUsage }
  { c2 with updatedAt := some now }

/-- The part of the consumeUsage transaction body after the limit lookup
(source lines 674-715): check the limit, then either reject without
writing or increment exactly the resolved tier and write the counter. -/
def consumeWithLimit (s : SubStore) (userId : String) (plan : PlanType)
    (tier : UsageTier) (limit : Option Int) (counter : UsageCounterDoc)
    (periodKey : String) (now : Int) : UsageConsumptionResult × SubStore :=
  let currentUsage := tierCount counter tier
  if limitReached limit currentUsage then
    ({ allowed := false
       tier := tier
       planType := plan
       limit := limit
       remaining := some 0
       counts := { basic := counter.basicCount, advanced := counter.advancedCount }
       resetsOn := getNextMonthlyReset now }, s)
  else
    let updatedUsage := currentUsage + 1
    let counter2 := bumpCounter counter tier updatedUsage now
    ({ allowed := true
       tier := tier
       planType := plan
       limit := limit
       remaining := computeRemaining limit updatedUsage
       counts := { basic := counter2.basicCount, advanced := counter2.advancedCount }
       resetsOn := getNextMonthlyReset now },
     SubStore.write s userId periodKey counter2)

/-- consumeUsage, subcollection layout: the whole call as one atomic
state transformation of the store. -/
def consumeUsage (s : SubStore) (userId : String) (plan : PlanType)
    (model : String) (requestedAt : Int) : UsageConsumptionResult × SubStore :=
  let tier := resolveUsageTier (some model)
  let now := requestedAt
  let periodKey := formatPeriodKey now
  let counter := loadOrInitCounter s userId plan now
  consumeWithLimit s userId plan tier ((PLAN_LIMITS plan).limitFor tier)
    counter periodKey now

/-- rollbackUsage, subcollection layout.  sysNow stands for the wall
clock read by new Date() when stamping updatedAt. -/
def rollbackUsage (s : SubStore) (userId model : String)
    (occurredAt sysNow : Int) : SubStore :=
  let tier := resolveUsageTier (some model)
  let periodKey := formatPeriodKey occurredAt
  match s userId periodKey with
  | none => s
  | some data =>
      let counter :=
        { data with
          periodKey := periodKey
          userId := userId
          updatedAt := some (normalizeDate data.updatedAt occurredAt)
          lastResetAt := some (normalizeDate data.lastResetAt occurredAt) }
      if tier = UsageTier.basic ∧ counter.basicCount > (0 : Int) then
        SubStore.write s userId periodKey
          { counter with basicCount := counter.basicCount - 1, updatedAt := some sysNow }
      else if tier = UsageTier.advanced ∧ counter.advancedCount > (0 : Int) then
        SubStore.write s userId periodKey
          { counter with advancedCount := counter.advancedCount - 1, updatedAt := some sysNow }
      else s

/-- resetUsage, subcollection layout: unconditional overwrite with a
zeroed skeleton stamped with the reset reason and date. -/
def resetUsage (s : SubStore) (userId : String) (plan : PlanType)
    (reason : ResetReason) (resetDate : Int) : SubStore :=
  let periodKey := formatPeriodKey resetDate
  let counter :=
    { buildCounterSkeleton userId plan resetDate with
      periodKey := periodKey
      lastResetReason := some reason
      lastResetAt := some resetDate }
  SubStore.write s userId periodKey counter

/-- getUsageSummary, subcollection layout.  The source performs a single
read and no write; the store component of the result makes the absence
of writes explicit in the state-passing embedding. -/
def getUsageSummary (s : SubStore) (userId : String) (plan : PlanType)
    (asOf : Int) : UsageSummary × SubStore :=
  let periodKey := formatPeriodKey asOf
  let counter :=
    match s userId periodKey with
    | some data =>
        { data with
          periodKey := periodKey
          planType := plan
          updatedAt := some (normalizeDate data.updatedAt asOf)
          lastResetAt := some (normalizeDate data.lastResetAt asOf) }
    | none => { buildCounterSkeleton userId plan asOf with periodKey := periodKey }
  let limits := PLAN_LIMITS plan
  ({ planType := plan
     periodKey := counter.periodKey
     counts := { basic := counter.basicCount, advanced := counter.advancedCount }
     limits := { basic := limits.basic, advanced := limits.advanced }
     remaining :=
       { basic := computeRemaining limits.basic counter.basicCount
         advanced := computeRemaining limits.advanced counter.advancedCount }
     lastResetAt := counter.lastResetAt
     lastResetReason := counter.lastResetReason
     resetsOn := getNextMonthlyReset asOf }, s)

/-! ## Array layout: all periods embedded in the user document -/

/-- The slice of the user document the tracker touches: its usage field,
which may be absent or hold the array of per-period records. -/
structure UserDoc where
  usage : Option (List UsageCounterDoc)
deriving DecidableEq

/-- The users collection, keyed by uid (the source queries
where uid == userId, limit 1). -/
abbrev UsersStore := String → Option UserDoc

/-- tx.set(userDoc.ref, usage, merge): replaces the usage field. -/
def UsersStore.writeUsage (s : UsersStore) (userId : String)
    (records : List UsageCounterDoc) : UsersStore :=
  fun u => if u = userId then some { usage := some records } else s u

/-- deserializeUsageRecords: a missing or non-array usage field yields the
empty list; each record is normalized (in the typed embedding the field
coercions of the source are identities except for the optional dates). -/
def deserializeUsageRecords (records : Option (List UsageCounterDoc))
    (userId : String) (fallbackPlan : PlanType) (now : Int) :
    List UsageCounterDoc :=
  match records with
  | none => []
  | some rs =>
      rs.map fun r =>
        { userId := r.userId
          periodKey := r.periodKey
          planType := r.planType
          basicCount := r.basicCount
          advancedCount := r.advancedCount
          updatedAt := some (normalizeDate r.updatedAt now)
          lastResetAt := some (normalizeDate r.lastResetAt now)
          lastResetReason := r.lastResetReason }

/-- serializeUsageRecords: field-by-field rebuild of each record. -/
def serializeUsageRecords (records : List UsageCounterDoc) :
    List UsageCounterDoc :=
  records.map fun r =>
    { userId := r.userId
      periodKey := r.periodKey
      planType := r.planType
      basicCount := r.basicCount
      advancedCount := r.advancedCount
      updatedAt := r.updatedAt
      lastResetAt := r.lastResetAt
      lastResetReason := r.lastResetReason }

/-- consumeUsage, array layout: rejects with an error when no user
document matches the uid (the thrown Error message), otherwise performs
the same check-then-increment on the record for the period inside the
usage array. -/
def consumeUsageArray (s : UsersStore) (userId : String) (plan : PlanType)
    (model : String) (requestedAt : Int) :
    Except String (UsageConsumptionResult × UsersStore) :=
  let tier := resolveUsageTier (some model)
  let now := requestedAt
  let periodKey := formatPeriodKey now
  match s userId with
  | none => Except.error ("User document not found for uid " ++ userId)
  | some userDoc =>
      let usageRecords := deserializeUsageRecords userDoc.usage userId plan now
      let existingIndex := usageRecords.findIdx? fun r => r.periodKey = periodKey
      let counter :=
        match existingIndex with
        | some i =>
            { usageRecords.getD i (buildCounterSkeleton userId plan now) with
              periodKey := periodKey
              userId := userId
              planType := plan
              updatedAt := some now }
        | none => { buildCounterSkeleton userId plan now with periodKey := periodKey }
      let limit := (PLAN_LIMITS plan).limitFor tier
      let currentUsage := tierCount counter tier
      if limitReached limit currentUsage then
        Except.ok
          ({ allowed := false
             tier := tier
             planType := plan
             limit := limit
             remaining := some 0
             counts := { basic := counter.basicCount, advanced := counter.advancedCount }
             resetsOn := getNextMonthlyReset now }, s)
      else
        let updatedUsage := currentUsage + 1
        let counter2 := bumpCounter counter tier updatedUsage now
        let newRecords :=
          match existingIndex with
          | some i => usageRecords.set i counter2
          | none => usageRecords ++ [counter2]
        Except.ok
          ({ allowed := true
             tier := tier
             planType := plan
             limit := limit
             remaining := computeRemaining limit updatedUsage
             counts := { basic := counter2.basicCount, advanced := counter2.advancedCount }
             resetsOn := getNextMonthlyReset now },
           UsersStore.writeUsage s userId (serializeUsageRecords newRecords))

/-- rollbackUsage, array layout: silently returns when no user document
matches; sysNow stands for the new Date() stamp. -/
def rollbackUsageArray (s : UsersStore) (userId model : String)
    (occurredAt sysNow : Int) : UsersStore :=
  let tier := resolveUsageTier (some model)
  let periodKey := formatPeriodKey occurredAt
  match s userId with
  | none => s
  | some userDoc =>
      let usageRecords :=
        deserializeUsageRecords userDoc.usage userId PlanType.free occurredAt
      match usageRecords.findIdx? fun r => r.periodKey = periodKey with
      | none => s
      | some i =>
          let counter :=
            { usageRecords.getD i (buildCounterSkeleton userId PlanType.free occurredAt) with
              periodKey := periodKey
              userId := userId }
          if tier = UsageTier.basic ∧ counter.basicCount > (0 : Int) then
            UsersStore.writeUsage s userId (serializeUsageRecords
              (usageRecords.set i
                { counter with basicCount := counter.basicCount - 1, updatedAt := some sysNow }))
          else if tier = UsageTier.advanced ∧ counter.advancedCount > (0 : Int) then
            UsersStore.writeUsage s userId (serializeUsageRecords
              (usageRecords.set i
                { counter with advancedCount := counter.advancedCount - 1, updatedAt := some sysNow }))
          else s

/-- resetUsage, array layout: rejects with an error when no user document
matches the uid, otherwise replaces or appends a zeroed counter for the
period. -/
def resetUsageArray (s : UsersStore) (userId : String) (plan : PlanType)
    (reason : ResetReason) (resetDate : Int) : Except String UsersStore :=
  let periodKey := formatPeriodKey resetDate
  match s userId with
  | none => Except.error ("User document not found for uid " ++ userId)
  | some userDoc =>
      let usageRecords := deserializeUsageRecords userDoc.usage userId plan resetDate
      let counter :=
        { buildCounterSkeleton userId plan resetDate with
          periodKey := periodKey
          lastResetReason := some reason
          lastResetAt := some resetDate }
      let newRecords :=
        match usageRecords.findIdx? fun r => r.periodKey = periodKey with
        | some i => usageRecords.set i counter
        | none => usageRecords ++ [counter]
      Except.ok (UsersStore.writeUsage s userId (serializeUsageRecords newRecords))

/-! ## Sequences of operations over the subcollection layout -/

/-- One call into the tracker (the three mutating operations). -/
inductive UsageOp where
  | consume (userId : String) (plan : PlanType) (model : String) (requestedAt : Int)
  | rollback (userId model : String) (occurredAt sysNow : Int)
  | reset (userId : String) (plan : PlanType) (reason : ResetReason) (resetDate : Int)

/-- Effect of one operation on the store. -/
def applyOp (s : SubStore) : UsageOp → SubStore
  | UsageOp.consume u p m t => (consumeUsage s u p m t).2
  | UsageOp.rollback u m t w => rollbackUsage s u m t w
  | UsageOp.reset u p r t => resetUsage s u p r t

/-- Effect of a sequence of operations, first operation first. -/
def applyOps (s : SubStore) : List UsageOp → SubStore
  | [] => s
  | op :: rest => applyOps (applyOp s op) rest

/-- n consumeUsage calls with identical arguments, serialized by the
transaction primitive of the store; returns the final store and the
allowed flag of each call in order. -/
def consumeRep (userId : String) (plan : PlanType) (model : String)
    (requestedAt : Int) : Nat → SubStore → SubStore × List Bool
  | 0, s => (s, [])
  | Nat.succ n, s =>
      let r := consumeUsage s userId plan model requestedAt
      let rest := consumeRep userId plan model requestedAt n r.2
      (rest.1, r.1.allowed :: rest.2)

/-- n rollbackUsage calls with identical arguments. -/
def rollbackRep (userId model : String) (occurredAt sysNow : Int) :
    Nat → SubStore → SubStore
  | 0, s => s
  | Nat.succ n, s =>
      rollbackRep userId model occurredAt sysNow n
        (rollbackUsage s userId model occurredAt sysNow)

/-- Both counts non-negative at every key: the invariant of claim C4. -/
def CountsNonneg (s : SubStore) : Prop :=
  ∀ u pk c, s u pk = some c → 0 ≤ c.basicCount ∧ 0 ≤ c.advancedCount

/-- The tier other than the given one. -/
def otherTier : UsageTier → UsageTier
  | UsageTier.basic => UsageTier.advanced
  | UsageTier.advanced => UsageTier.basic

/-! ## Store and counter lemmas -/

theorem SubStore.write_self (s : SubStore) (u pk : String) (d : UsageCounterDoc) :
    SubStore.write s u pk d u pk = some d := by
  simp [SubStore.write]

theorem SubStore.write_other (s : SubStore) (u pk : String) (d : UsageCounterDoc)
    (u2 pk2 : String) (h : ¬(u2 = u ∧ pk2 = pk)) :
    SubStore.write s u pk d u2 pk2 = s u2 pk2 := by
  simp [SubStore.write, h]

theorem tierCount_bump_same (c : UsageCounterDoc) (t : UsageTier) (v now : Int) :
    tierCount (bumpCounter c t v now) t = v := by
  cases t <;> simp [tierCount, bumpCounter]

theorem tierCount_bump_other (c : UsageCounterDoc) (t : UsageTier) (v now : Int) :
    tierCount (bumpCounter c t v now) (otherTier t) = tierCount c (otherTier t) := by
  cases t <;> simp [tierCount, bumpCounter, otherTier]

theorem storedTierCount_write_self (s : SubStore) (u pk : String)
    (d : UsageCounterDoc) (t : UsageTier) :
    storedTierCount (SubStore.write s u pk d) u pk t = tierCount d t := by
  unfold storedTierCount
  rw [SubStore.write_self]

theorem basicCount_loadOrInit (s : SubStore) (u : String) (p : PlanType)
    (now : Int) :
    (loadOrInitCounter s u p now).basicCount =
      storedTierCount s u (formatPeriodKey now) UsageTier.basic := by
  unfold loadOrInitCounter storedTierCount
  rcases hs : s u (formatPeriodKey now) with _ | d <;>
    simp [hs, tierCount, buildCounterSkeleton]

theorem advancedCount_loadOrInit (s : SubStore) (u : String) (p : PlanType)
    (now : Int) :
    (loadOrInitCounter s u p now).advancedCount =
      storedTierCount s u (formatPeriodKey now) UsageTier.advanced := by
  unfold loadOrInitCounter storedTierCount
  rcases hs : s u (formatPeriodKey now) with _ | d <;>
    simp [hs, tierCount, buildCounterSkeleton]

theorem tierCount_loadOrInit (s : SubStore) (u : String) (p : PlanType)
    (now : Int) (t : UsageTier) :
    tierCount (loadOrInitCounter s u p now) t =
      storedTierCount s u (formatPeriodKey now) t := by
  cases t
  · exact basicCount_loadOrInit s u p now
  · exact advancedCount_loadOrInit s u p now

theorem limitReached_none (cur : Int) : limitReached none cur = false := rfl

theorem limitReached_some (l cur : Int) :
    limitReached (some l) cur = decide (l ≤ cur) := rfl

/-! ## consumeUsage step characterization -/

/-- A rejected call leaves the store untouched and reports the loaded
counts with remaining 0. -/
theorem consumeUsage_rejected (s : SubStore) (u : String) (p : PlanType)
    (m : String) (t : Int)
    (h : limitReached ((PLAN_LIMITS p).limitFor (resolveUsageTier (some m)))
        (storedTierCount s u (formatPeriodKey t) (resolveUsageTier (some m))) = true) :
    (consumeUsage s u p m t).1.allowed = false ∧
    (consumeUsage s u p m t).2 = s ∧
    (consumeUsage s u p m t).1.remaining = some 0 ∧
    (consumeUsage s u p m t).1.counts.basic =
      storedTierCount s u (formatPeriodKey t) UsageTier.basic ∧
    (consumeUsage s u p m t).1.counts.advanced =
      storedTierCount s u (formatPeriodKey t) UsageTier.advanced ∧
    (consumeUsage s u p m t).1.limit =
      (PLAN_LIMITS p).limitFor (resolveUsageTier (some m)) := by
  simp only [consumeUsage, consumeWithLimit, tierCount_loadOrInit, h]
  simp [basicCount_loadOrInit, advancedCount_loadOrInit]

/-- An admitted call increments exactly the resolved tier, stamps
updatedAt, and writes the counter at the period key. -/
theorem consumeUsage_allowed (s : SubStore) (u : String) (p : PlanType)
    (m : String) (t : Int)
    (h : limitReached ((PLAN_LIMITS p).limitFor (resolveUsageTier (some m)))
        (storedTierCount s u (formatPeriodKey t) (resolveUsageTier (some m))) = false) :
    (consumeUsage s u p m t).1.allowed = true ∧
    (consumeUsage s u p m t).2 =
      SubStore.write s u (formatPeriodKey t)
        (bumpCounter (loadOrInitCounter s u p t) (resolveUsageTier (some m))
          (storedTierCount s u (formatPeriodKey t) (resolveUsageTier (some m)) + 1) t) ∧
    (consumeUsage s u p m t).1.remaining =
      computeRemaining ((PLAN_LIMITS p).limitFor (resolveUsageTier (some m)))
        (storedTierCount s u (formatPeriodKey t) (resolveUsageTier (some m)) + 1) ∧
    (consumeUsage s u p m t).1.limit =
      (PLAN_LIMITS p).limitFor (resolveUsageTier (some m)) := by
  simp only [consumeUsage, consumeWithLimit, tierCount_loadOrInit, h]
  simp

/-- Stored count at the consumed key and tier after an admitted call. -/
theorem storedTierCount_after_allowed (s : SubStore) (u : String) (p : PlanType)
    (m : String) (t : Int)
    (h : limitReached ((PLAN_LIMITS p).limitFor (resolveUsageTier (some m)))
        (storedTierCount s u (formatPeriodKey t) (resolveUsageTier (some m))) = false) :
    storedTierCount (consumeUsage s u p m t).2 u (formatPeriodKey t)
        (resolveUsageTier (some m)) =
      storedTierCount s u (formatPeriodKey t) (resolveUsageTier (some m)) + 1 := by
  rw [(consumeUsage_allowed s u p m t h).2.1, storedTierCount_write_self,
    tierCount_bump_same]

/-- An admitted call does not change the count of the other tier. -/
theorem storedOther_after_allowed (s : SubStore) (u : String) (p : PlanType)
    (m : String) (t : Int)
    (h : limitReached ((PLAN_LIMITS p).limitFor (resolveUsageTier (some m)))
        (storedTierCount s u (formatPeriodKey t) (resolveUsageTier (some m))) = false) :
    storedTierCount (consumeUsage s u p m t).2 u (formatPeriodKey t)
        (otherTier (resolveUsageTier (some m))) =
      storedTierCount s u (formatPeriodKey t)
        (otherTier (resolveUsageTier (some m))) := by
  rw [(consumeUsage_allowed s u p m t h).2.1, storedTierCount_write_self,
    tierCount_bump_other, tierCount_loadOrInit]

/-- Keys other than the consumed (user, period) are never written. -/
theorem consumeUsage_frame (s : SubStore) (u : String) (p : PlanType)
    (m : String) (t : Int) (u2 pk2 : String)
    (h : ¬(u2 = u ∧ pk2 = formatPeriodKey t)) :
    (consumeUsage s u p m t).2 u2 pk2 = s u2 pk2 := by
  by_cases hl : limitReached ((PLAN_LIMITS p).limitFor (resolveUsageTier (some m)))
      (storedTierCount s u (formatPeriodKey t) (resolveUsageTier (some m))) = true
  · rw [(consumeUsage_rejected s u p m t hl).2.1]
  · rw [(consumeUsage_allowed s u p m t (by simpa using hl)).2.1]
    exact SubStore.write_other _ _ _ _ _ _ h

theorem limitReached_false_of_lt (l cur : Int) (h : cur < l) :
    limitReached (some l) cur = false := by
  simp only [limitReached, decide_eq_false_iff_not]
  omega

theorem limitReached_true_of_ge (l cur : Int) (h : l ≤ cur) :
    limitReached (some l) cur = true := by
  simp only [limitReached, decide_eq_true_eq]
  omega

theorem storedTierCount_nonneg (s : SubStore) (h : CountsNonneg s)
    (u pk : String) (t : UsageTier) : 0 ≤ storedTierCount s u pk t := by
  unfold storedTierCount
  rcases hs : s u pk with _ | c
  · simp
  · cases t
    · exact (h u pk c hs).1
    · exact (h u pk c hs).2

/-! ## Iterated consumption -/

/-- While the limit is not yet reached, every serialized call is admitted
and the stored count advances by one per call. -/
theorem consumeRep_all_allowed (u : String) (p : PlanType) (m : String)
    (τ : Int) (L : Int)
    (hlim : (PLAN_LIMITS p).limitFor (resolveUsageTier (some m)) = some L) :
    ∀ (n : Nat) (s : SubStore) (k : Int),
      storedTierCount s u (formatPeriodKey τ) (resolveUsageTier (some m)) = k →
      k + n ≤ L →
      (consumeRep u p m τ n s).2 = List.replicate n true ∧
      storedTierCount (consumeRep u p m τ n s).1 u (formatPeriodKey τ)
          (resolveUsageTier (some m)) = k + n := by
  intro n
  induction n with
  | zero =>
      intro s k hk _
      simp [consumeRep, hk]
  | succ n ih =>
      intro s k hk hle
      have hklt : k < L := by
        have : (n : Int) + 1 ≤ (Nat.succ n : Int) := by push_cast; omega
        push_cast at hle
        omega
      have hfalse : limitReached ((PLAN_LIMITS p).limitFor (resolveUsageTier (some m)))
          (storedTierCount s u (formatPeriodKey τ) (resolveUsageTier (some m))) = false := by
        rw [hlim, hk]
        exact limitReached_false_of_lt L k hklt
      have hstep := storedTierCount_after_allowed s u p m τ hfalse
      rw [hk] at hstep
      have hrest := ih (consumeUsage s u p m τ).2 (k + 1) hstep (by push_cast at hle ⊢; omega)
      refine ⟨?_, ?_⟩
      · simp only [consumeRep, (consumeUsage_allowed s u p m τ hfalse).1, hrest.1,
          List.replicate_succ]
      · simp only [consumeRep, hrest.2]
        push_cast
        ring

/-- Once the stored count has reached the limit, every further serialized
call is rejected and the store never changes again. -/
theorem consumeRep_all_rejected (u : String) (p : PlanType) (m : String)
    (τ : Int) (L : Int)
    (hlim : (PLAN_LIMITS p).limitFor (resolveUsageTier (some m)) = some L) :
    ∀ (n : Nat) (s : SubStore),
      L ≤ storedTierCount s u (formatPeriodKey τ) (resolveUsageTier (some m)) →
      (consumeRep u p m τ n s).2 = List.replicate n false ∧
      (consumeRep u p m τ n s).1 = s := by
  intro n
  induction n with
  | zero =>
      intro s _
      simp [consumeRep]
  | succ n ih =>
      intro s hge
      have htrue : limitReached ((PLAN_LIMITS p).limitFor (resolveUsageTier (some m)))
          (storedTierCount s u (formatPeriodKey τ) (resolveUsageTier (some m))) = true := by
        rw [hlim]
        exact limitReached_true_of_ge L _ hge
      have hrej := consumeUsage_rejected s u p m τ htrue
      have hrest := ih (consumeUsage s u p m τ).2 (by rw [hrej.2.1]; exact hge)
      rw [hrej.2.1] at hrest
      refine ⟨?_, ?_⟩
      · simp only [consumeRep, hrej.1, hrej.2.1, List.replicate_succ, hrest.1]
      · simp only [consumeRep, hrej.2.1, hrest.2]

/-- Splitting a run of serialized calls. -/
theorem consumeRep_add (u : String) (p : PlanType) (m : String) (τ : Int)
    (a b : Nat) (s : SubStore) :
    consumeRep u p m τ (a + b) s =
      ((consumeRep u p m τ b (consumeRep u p m τ a s).1).1,
       (consumeRep u p m τ a s).2 ++ (consumeRep u p m τ b (consumeRep u p m τ a s).1).2) := by
  induction a generalizing s with
  | zero => simp [consumeRep]
  | succ a ih =>
      have : a + 1 + b = (a + b) + 1 := by omega
      rw [this]
      simp only [consumeRep, ih]
      simp [consumeRep]

/-! ## rollbackUsage characterization -/

theorem rollbackUsage_absent (s : SubStore) (u m : String) (τ w : Int)
    (h : s u (formatPeriodKey τ) = none) : rollbackUsage s u m τ w = s := by
  simp [rollbackUsage, h]

theorem rollbackUsage_zero (s : SubStore) (u m : String) (τ w : Int)
    (c : UsageCounterDoc) (h : s u (formatPeriodKey τ) = some c)
    (hc : tierCount c (resolveUsageTier (some m)) = 0) :
    rollbackUsage s u m τ w = s := by
  rcases ht : resolveUsageTier (some m) with _ | _ <;>
    rw [ht] at hc <;>
    simp_all [rollbackUsage, tierCount, h, ht]

/-- The stored count after one rollback: decremented, floored at 0. -/
theorem rollbackUsage_count (s : SubStore) (u m : String) (τ w : Int)
    (h0 : 0 ≤ storedTierCount s u (formatPeriodKey τ) (resolveUsageTier (some m))) :
    storedTierCount (rollbackUsage s u m τ w) u (formatPeriodKey τ)
        (resolveUsageTier (some m)) =
      max (storedTierCount s u (formatPeriodKey τ) (resolveUsageTier (some m)) - 1) 0 := by
  rcases hs : s u (formatPeriodKey τ) with _ | d
  · rw [rollbackUsage_absent s u m τ w hs]
    unfold storedTierCount
    rw [hs]
    simp
  · have hsc : storedTierCount s u (formatPeriodKey τ) (resolveUsageTier (some m)) =
        tierCount d (resolveUsageTier (some m)) := by
      unfold storedTierCount
      rw [hs]
    rcases ht : resolveUsageTier (some m) with _ | _ <;> rw [ht] at hsc h0
    · by_cases hpos : d.basicCount > (0 : Int)
      · rw [hsc]
        simp only [rollbackUsage, ht, hs]
        simp only [hpos, and_true, true_and, if_pos]
        rw [storedTierCount_write_self]
        simp [tierCount]
        omega
      · have hz : d.basicCount = 0 := by
          rw [hsc] at h0
          simp [tierCount] at h0 hpos ⊢
          omega
        rw [rollbackUsage_zero s u m τ w d hs (by rw [ht]; simpa [tierCount] using hz)]
        unfold storedTierCount
        rw [hs]
        simp [tierCount, hz]
    · by_cases hpos : d.advancedCount > (0 : Int)
      · rw [hsc]
        simp only [rollbackUsage, ht, hs]
        simp only [hpos, and_true, true_and, if_pos]
        rw [if_neg (by simp), storedTierCount_write_self]
        simp [tierCount]
        omega
      · have hz : d.advancedCount = 0 := by
          rw [hsc] at h0
          simp [tierCount] at h0 hpos ⊢
          omega
        rw [rollbackUsage_zero s u m τ w d hs (by rw [ht]; simpa [tierCount] using hz)]
        unfold storedTierCount
        rw [hs]
        simp [tierCount, hz]

/-- Either a rollback writes nothing, or it writes back the loaded
document with exactly one positive count decremented. -/
theorem rollbackUsage_cases (s : SubStore) (u m : String) (τ w : Int) :
    rollbackUsage s u m τ w = s ∨
    ∃ d, s u (formatPeriodKey τ) = some d ∧
      ∃ doc, rollbackUsage s u m τ w = SubStore.write s u (formatPeriodKey τ) doc ∧
        ((doc.basicCount = d.basicCount - 1 ∧ d.basicCount > 0 ∧
            doc.advancedCount = d.advancedCount) ∨
         (doc.advancedCount = d.advancedCount - 1 ∧ d.advancedCount > 0 ∧
            doc.basicCount = d.basicCount)) := by
  rcases hs : s u (formatPeriodKey τ) with _ | d
  · exact Or.inl (rollbackUsage_absent s u m τ w hs)
  · rcases ht : resolveUsageTier (some m) with _ | _
    · by_cases hpos : d.basicCount > (0 : Int)
      · have heq : rollbackUsage s u m τ w = SubStore.write s u (formatPeriodKey τ)
            { userId := u, periodKey := formatPeriodKey τ, planType := d.planType,
              basicCount := d.basicCount - 1, advancedCount := d.advancedCount,
              updatedAt := some w, lastResetAt := some (normalizeDate d.lastResetAt τ),
              lastResetReason := d.lastResetReason } := by
          simp only [rollbackUsage, ht, hs]
          rw [if_pos ⟨trivial, hpos⟩]
        exact Or.inr ⟨d, rfl, _, heq, Or.inl ⟨rfl, hpos, rfl⟩⟩
      · left
        have hz : tierCount d (resolveUsageTier (some m)) ≤ 0 := by
          rw [ht]
          simpa [tierCount] using hpos
        simp only [rollbackUsage, ht, hs]
        rw [if_neg (by simp [hpos]), if_neg (by simp)]
    · by_cases hpos : d.advancedCount > (0 : Int)
      · have heq : rollbackUsage s u m τ w = SubStore.write s u (formatPeriodKey τ)
            { userId := u, periodKey := formatPeriodKey τ, planType := d.planType,
              basicCount := d.basicCount, advancedCount := d.advancedCount - 1,
              updatedAt := some w, lastResetAt := some (normalizeDate d.lastResetAt τ),
              lastResetReason := d.lastResetReason } := by
          simp only [rollbackUsage, ht, hs]
          rw [if_neg (by simp), if_pos ⟨trivial, hpos⟩]
        exact Or.inr ⟨d, rfl, _, heq, Or.inr ⟨rfl, hpos, rfl⟩⟩
      · left
        simp only [rollbackUsage, ht, hs]
        rw [if_neg (by simp), if_neg (by simp [hpos])]

/-- Iterated rollback: n rollbacks take a count of j down to max (j - n) 0. -/
theorem rollbackRep_count (u m : String) (τ w : Int) :
    ∀ (n : Nat) (s : SubStore) (j : Int),
      storedTierCount s u (formatPeriodKey τ) (resolveUsageTier (some m)) = j →
      0 ≤ j →
      storedTierCount (rollbackRep u m τ w n s) u (formatPeriodKey τ)
          (resolveUsageTier (some m)) = max (j - n) 0 := by
  intro n
  induction n with
  | zero =>
      intro s j hj hj0
      simp only [rollbackRep]
      omega
  | succ n ih =>
      intro s j hj hj0
      have hstep := rollbackUsage_count s u m τ w (by rw [hj]; exact hj0)
      rw [hj] at hstep
      have := ih (rollbackUsage s u m τ w) (max (j - 1) 0) hstep (by omega)
      simp only [rollbackRep]
      rw [this]
      push_cast
      omega

/-! ## Preservation of the non-negativity invariant -/

theorem write_preserves_nonneg (s : SubStore) (u pk : String)
    (d : UsageCounterDoc) (h : CountsNonneg s)
    (hb : 0 ≤ d.basicCount) (ha : 0 ≤ d.advancedCount) :
    CountsNonneg (SubStore.write s u pk d) := by
  intro u2 pk2 c hc
  by_cases hk : u2 = u ∧ pk2 = pk
  · rw [hk.1, hk.2, SubStore.write_self] at hc
    cases hc
    exact ⟨hb, ha⟩
  · rw [SubStore.write_other s u pk d u2 pk2 hk] at hc
    exact h u2 pk2 c hc

theorem consumeUsage_preserves_nonneg (s : SubStore) (u : String)
    (p : PlanType) (m : String) (t : Int) (h : CountsNonneg s) :
    CountsNonneg (consumeUsage s u p m t).2 := by
  by_cases hl : limitReached ((PLAN_LIMITS p).limitFor (resolveUsageTier (some m)))
      (storedTierCount s u (formatPeriodKey t) (resolveUsageTier (some m))) = true
  · rw [(consumeUsage_rejected s u p m t hl).2.1]
    exact h
  · rw [(consumeUsage_allowed s u p m t (by simpa using hl)).2.1]
    refine write_preserves_nonneg s u (formatPeriodKey t) _ h ?_ ?_
    · rcases ht : resolveUsageTier (some m) with _ | _
      · have := storedTierCount_nonneg s h u (formatPeriodKey t) UsageTier.basic
        simp [bumpCounter]
        omega
      · simp [bumpCounter, basicCount_loadOrInit]
        exact storedTierCount_nonneg s h u (formatPeriodKey t) UsageTier.basic
    · rcases ht : resolveUsageTier (some m) with _ | _
      · simp [bumpCounter, advancedCount_loadOrInit]
        exact storedTierCount_nonneg s h u (formatPeriodKey t) UsageTier.advanced
      · have := storedTierCount_nonneg s h u (formatPeriodKey t) UsageTier.advanced
        simp [bumpCounter]
        omega

theorem rollbackUsage_preserves_nonneg (s : SubStore) (u m : String)
    (τ w : Int) (h : CountsNonneg s) :
    CountsNonneg (rollbackUsage s u m τ w) := by
  rcases rollbackUsage_cases s u m τ w with heq | ⟨d, hs, doc, heq, hdoc⟩
  · rw [heq]
    exact h
  · rw [heq]
    have hd := h u (formatPeriodKey τ) d hs
    rcases hdoc with ⟨h1, h2, h3⟩ | ⟨h1, h2, h3⟩
    · exact write_preserves_nonneg _ _ _ _ h (by omega) (by omega)
    · exact write_preserves_nonneg _ _ _ _ h (by omega) (by omega)

theorem resetUsage_preserves_nonneg (s : SubStore) (u : String)
    (p : PlanType) (r : ResetReason) (t : Int) (h : CountsNonneg s) :
    CountsNonneg (resetUsage s u p r t) := by
  unfold resetUsage
  exact write_preserves_nonneg _ _ _ _ h (by simp [buildCounterSkeleton])
    (by simp [buildCounterSkeleton])

theorem applyOp_preserves_nonneg (s : SubStore) (op : UsageOp)
    (h : CountsNonneg s) : CountsNonneg (applyOp s op) := by
  cases op with
  | consume u p m t => exact consumeUsage_preserves_nonneg s u p m t h
  | rollback u m t w => exact rollbackUsage_preserves_nonneg s u m t w h
  | reset u p r t => exact resetUsage_preserves_nonneg s u p r t h

theorem applyOps_preserves_nonneg (ops : List UsageOp) :
    ∀ (s : SubStore), CountsNonneg s → CountsNonneg (applyOps s ops) := by
  induction ops with
  | nil => intro s h; exact h
  | cons op rest ih =>
      intro s h
      exact ih (applyOp s op) (applyOp_preserves_nonneg s op h)

/-- Every limit in the catalog is non-negative. -/
theorem PLAN_LIMITS_nonneg (p : PlanType) (t : UsageTier) (L : Int)
    (h : (PLAN_LIMITS p).limitFor t = some L) : 0 ≤ L := by
  cases p <;> cases t <;>
    simp [PLAN_LIMITS, PlanLimitPair.limitFor] at h <;> omega

theorem limitReached_eq_true_iff (limit : Option Int) (cur : Int) :
    limitReached limit cur = true ↔ ∃ l, limit = some l ∧ l ≤ cur := by
  cases limit <;> simp [limitReached]

/-! ## Claim theorems -/

/-- C7: formatPeriodKey formats the UTC year and 1-based zero-padded month
as YYYY-MM, so any two instants in the same UTC calendar month yield the
same key; 2024-03-31T23:59:59Z and 2024-03-01T00:00:00Z both map to
2024-03 and 2024-04-01T00:00:00Z maps to 2024-04. -/
theorem periodKey_utc_month_bucketing :
    (∀ d1 d2 : Int, getUTCFullYear d1 = getUTCFullYear d2 →
        getUTCMonth d1 = getUTCMonth d2 →
        formatPeriodKey d1 = formatPeriodKey d2) ∧
    formatPeriodKey 1711929599000 = "2024-03" ∧
    formatPeriodKey 1709251200000 = "2024-03" ∧
    formatPeriodKey 1711929600000 = "2024-04" := by
  refine ⟨?_, by decide, by decide, by decide⟩
  intro d1 d2 hy hm
  unfold formatPeriodKey
  rw [hy, hm]

/-- Witness for C7 at the concrete month boundary instants. -/
theorem periodKey_utc_month_bucketing_witness :
    getUTCFullYear 1709251200000 = getUTCFullYear 1711929599000 ∧
    getUTCMonth 1709251200000 = getUTCMonth 1711929599000 ∧
    formatPeriodKey 1709251200000 = formatPeriodKey 1711929599000 :=
  ⟨by decide, by decide,
    periodKey_utc_month_bucketing.1 1709251200000 1711929599000
      (by decide) (by decide)⟩

/-- C8: resolvePlanType and resolveUsageTier are total: every input
(including null and empty) resolves, pro and unlimited are recognized
case-insensitively and everything else is free; a model resolves to basic
exactly when its lowercasing is in the basic set, to advanced whenever it
is in the advanced set, and to advanced for everything else. -/
theorem resolvers_total_and_fail_safe :
    (∀ s : Option String,
      (resolvePlanType s = PlanType.pro ↔ jsToLower (s.getD "") = "pro") ∧
      (resolvePlanType s = PlanType.unlimited ↔
        jsToLower (s.getD "") = "unlimited") ∧
      (resolvePlanType s = PlanType.free ↔
        (jsToLower (s.getD "") ≠ "pro" ∧ jsToLower (s.getD "") ≠ "unlimited"))) ∧
    (∀ m : Option String,
      (resolveUsageTier m = UsageTier.basic ↔
        BASIC_MODELS.contains (jsToLower (m.getD "")) = true) ∧
      (resolveUsageTier m = UsageTier.advanced ↔
        BASIC_MODELS.contains (jsToLower (m.getD "")) = false)) ∧
    (∀ m : Option String,
      ADVANCED_MODELS.contains (jsToLower (m.getD "")) = true →
        resolveUsageTier m = UsageTier.advanced) := by
  refine ⟨?_, ?_, ?_⟩
  · intro s
    by_cases h1 : jsToLower (s.getD "") = "pro"
    · simp [resolvePlanType, h1]
    · by_cases h2 : jsToLower (s.getD "") = "unlimited" <;>
        simp [resolvePlanType, h1, h2]
  · intro m
    by_cases hb : BASIC_MODELS.contains (jsToLower (m.getD "")) = true
    · simp [resolveUsageTier, hb]
    · by_cases ha : ADVANCED_MODELS.contains (jsToLower (m.getD "")) = true <;>
        simp_all [resolveUsageTier]
  · intro m hadv
    by_cases hb : BASIC_MODELS.contains (jsToLower (m.getD "")) = true
    · have : jsToLower (m.getD "") ∈ BASIC_MODELS := by
        simpa using hb
      have h2 : jsToLower (m.getD "") ∈ ADVANCED_MODELS := by
        simpa using hadv
      have : ∀ x, x ∈ BASIC_MODELS → x ∈ ADVANCED_MODELS → False := by decide
      exact absurd h2 (fun hc => this _ (by simpa using hb) hc)
    · have hb2 : jsToLower (m.getD "") ∉ BASIC_MODELS := by simpa using hb
      simp [resolveUsageTier, hb2]

/-- Witness for C8: the advanced-set membership hypothesis at claude. -/
theorem resolvers_total_and_fail_safe_witness :
    ADVANCED_MODELS.contains (jsToLower ((some "claude").getD "")) = true ∧
    resolveUsageTier (some "claude") = UsageTier.advanced :=
  ⟨by decide, resolvers_total_and_fail_safe.2.2 (some "claude") (by decide)⟩

/-- C3: on the code path where the tier limit is null, consumption is
always admitted with limit and remaining both null, for any prior count;
in the deployed catalog no plan has a null limit: in particular the plan
named unlimited is capped at 12000 basic and 1600 advanced, so it has no
uncapped tier. -/
theorem unlimited_limit_consume_spec :
    (∀ (s : SubStore) (u : String) (p : PlanType) (tier : UsageTier)
        (counter : UsageCounterDoc) (pk : String) (now : Int),
      (consumeWithLimit s u p tier none counter pk now).1.allowed = true ∧
      (consumeWithLimit s u p tier none counter pk now).1.limit = none ∧
      (consumeWithLimit s u p tier none counter pk now).1.remaining = none) ∧
    (∀ (p : PlanType) (t : UsageTier), ((PLAN_LIMITS p).limitFor t).isSome = true) ∧
    (PLAN_LIMITS PlanType.unlimited).basic = some 12000 ∧
    (PLAN_LIMITS PlanType.unlimited).advanced = some 1600 := by
  refine ⟨?_, ?_, rfl, rfl⟩
  · intro s u p tier counter pk now
    simp [consumeWithLimit, limitReached, computeRemaining]
  · intro p t
    cases p <;> cases t <;> simp [PLAN_LIMITS, PlanLimitPair.limitFor]

/-- C6: resetUsage overwrites the counter for the period of resetDate with
zeroed counts, the given reason and resetDate, whatever was stored there
before (including nothing), and writes no other key. -/
theorem resetUsage_spec (s : SubStore) (u : String) (p : PlanType)
    (reason : ResetReason) (d : Int) :
    resetUsage s u p reason d u (formatPeriodKey d) =
      some { userId := u, periodKey := formatPeriodKey d, planType := p,
             basicCount := 0, advancedCount := 0, updatedAt := some d,
             lastResetAt := some d, lastResetReason := some reason } ∧
    ∀ u2 pk2, ¬(u2 = u ∧ pk2 = formatPeriodKey d) →
      resetUsage s u p reason d u2 pk2 = s u2 pk2 := by
  constructor
  · unfold resetUsage
    rw [SubStore.write_self]
    simp [buildCounterSkeleton]
  · intro u2 pk2 hk
    unfold resetUsage
    exact SubStore.write_other _ _ _ _ _ _ hk

/-- Witness for C6: the frame condition at a different user. -/
theorem resetUsage_spec_witness :
    ¬("v" = "u" ∧ "1970-01" = formatPeriodKey 0) ∧
    resetUsage (fun _ _ => none) "u" PlanType.free ResetReason.subscription 0
        "v" "1970-01" = (fun _ _ => (none : Option UsageCounterDoc)) "v" "1970-01" :=
  ⟨by decide,
    (resetUsage_spec (fun _ _ => none) "u" PlanType.free
        ResetReason.subscription 0).2 "v" "1970-01" (by decide)⟩

/-- C9: getUsageSummary performs no write, and reports, for each tier,
remaining = limit minus the stored count floored at 0, or null when the
limit is null, over the stored counts for the period (0 when absent). -/
theorem getUsageSummary_readonly_spec (s : SubStore) (u : String)
    (p : PlanType) (t : Int) :
    (getUsageSummary s u p t).2 = s ∧
    (getUsageSummary s u p t).1.counts.basic =
      storedTierCount s u (formatPeriodKey t) UsageTier.basic ∧
    (getUsageSummary s u p t).1.counts.advanced =
      storedTierCount s u (formatPeriodKey t) UsageTier.advanced ∧
    (getUsageSummary s u p t).1.remaining.basic =
      (match (PLAN_LIMITS p).basic with
       | none => none
       | some l =>
           some (max (l - storedTierCount s u (formatPeriodKey t) UsageTier.basic) 0)) ∧
    (getUsageSummary s u p t).1.remaining.advanced =
      (match (PLAN_LIMITS p).advanced with
       | none => none
       | some l =>
           some (max (l - storedTierCount s u (formatPeriodKey t) UsageTier.advanced) 0)) := by
  unfold getUsageSummary storedTierCount
  rcases hs : s u (formatPeriodKey t) with _ | data <;>
    simp [hs, computeRemaining, tierCount, buildCounterSkeleton]


/-- C1: for a finite limit L, starting from a zeroed counter, L serialized
consumeUsage calls for the same (user, period) and tier are all admitted,
and call L+1 is rejected and leaves the store (hence both stored counts)
exactly as it was. -/
theorem consume_finite_limit_exhaustion (p : PlanType) (tier : UsageTier)
    (L : Int) (hL : (PLAN_LIMITS p).limitFor tier = some L)
    (m : String) (hm : resolveUsageTier (some m) = tier)
    (u : String) (τ : Int) (s0 : SubStore) (c0 : UsageCounterDoc)
    (hc : s0 u (formatPeriodKey τ) = some c0)
    (hb : c0.basicCount = 0) (ha : c0.advancedCount = 0) :
    (∀ f ∈ (consumeRep u p m τ L.toNat s0).2, f = true) ∧
    (consumeUsage (consumeRep u p m τ L.toNat s0).1 u p m τ).1.allowed = false ∧
    (consumeUsage (consumeRep u p m τ L.toNat s0).1 u p m τ).2 =
      (consumeRep u p m τ L.toNat s0).1 := by
  subst hm
  have hL0 : 0 ≤ L := PLAN_LIMITS_nonneg p _ L hL
  have hk0 : storedTierCount s0 u (formatPeriodKey τ) (resolveUsageTier (some m)) = 0 := by
    unfold storedTierCount
    rw [hc]
    rcases resolveUsageTier (some m) with _ | _ <;> simp [tierCount, hb, ha]
  have hall := consumeRep_all_allowed u p m τ L hL L.toNat s0 0 hk0
    (by rw [Int.toNat_of_nonneg hL0]; omega)
  have hcount : storedTierCount (consumeRep u p m τ L.toNat s0).1 u
      (formatPeriodKey τ) (resolveUsageTier (some m)) = L := by
    rw [hall.2, Int.toNat_of_nonneg hL0]
    omega
  have htrue : limitReached ((PLAN_LIMITS p).limitFor (resolveUsageTier (some m)))
      (storedTierCount (consumeRep u p m τ L.toNat s0).1 u (formatPeriodKey τ)
        (resolveUsageTier (some m))) = true := by
    rw [hL, hcount]
    exact limitReached_true_of_ge L L le_rfl
  have hrej := consumeUsage_rejected (consumeRep u p m τ L.toNat s0).1 u p m τ htrue
  refine ⟨?_, hrej.1, hrej.2.1⟩
  intro f hf
  rw [hall.1] at hf
  exact List.eq_of_mem_replicate hf

/-- Witness for C1 at the free plan and its advanced limit 0. -/
theorem consume_finite_limit_exhaustion_witness :
    (PLAN_LIMITS PlanType.free).limitFor UsageTier.advanced = some 0 ∧
    resolveUsageTier (some "claude") = UsageTier.advanced ∧
    (fun (u2 pk2 : String) =>
      if u2 = "u" ∧ pk2 = "1970-01" then
        some (buildCounterSkeleton "u" PlanType.free 0)
      else none) "u" (formatPeriodKey 0) =
      some (buildCounterSkeleton "u" PlanType.free 0) ∧
    (buildCounterSkeleton "u" PlanType.free 0).basicCount = 0 ∧
    (buildCounterSkeleton "u" PlanType.free 0).advancedCount = 0 ∧
    (consumeUsage (consumeRep "u" PlanType.free "claude" 0 (0 : Int).toNat
        (fun u2 pk2 =>
          if u2 = "u" ∧ pk2 = "1970-01" then
            some (buildCounterSkeleton "u" PlanType.free 0)
          else none)).1 "u" PlanType.free "claude" 0).1.allowed = false :=
  ⟨by decide, by decide, by decide, by decide, by decide,
    (consume_finite_limit_exhaustion PlanType.free UsageTier.advanced 0
      (by decide) "claude" (by decide) "u" 0
      (fun u2 pk2 =>
        if u2 = "u" ∧ pk2 = "1970-01" then
          some (buildCounterSkeleton "u" PlanType.free 0)
        else none)
      (buildCounterSkeleton "u" PlanType.free 0)
      (by decide) (by decide) (by decide)).2.1⟩

/-- C2: a single consumeUsage call is rejected exactly when the resolved
tier has a non-null limit already reached by the stored count; a rejected
call reports remaining 0 with the current counts and writes nothing; an
admitted call increments exactly the resolved tier by one, stamps
updatedAt with requestedAt, writes only the (user, period) document, and
reports remaining = limit - newCount (null when unlimited). -/
theorem consumeUsage_single_call_spec (s : SubStore) (u : String)
    (p : PlanType) (m : String) (t : Int) :
    ((consumeUsage s u p m t).1.allowed = false ↔
      ∃ l, (PLAN_LIMITS p).limitFor (resolveUsageTier (some m)) = some l ∧
        l ≤ storedTierCount s u (formatPeriodKey t) (resolveUsageTier (some m))) ∧
    ((consumeUsage s u p m t).1.allowed = false →
      (consumeUsage s u p m t).1.remaining = some 0 ∧
      (consumeUsage s u p m t).1.counts.basic =
        storedTierCount s u (formatPeriodKey t) UsageTier.basic ∧
      (consumeUsage s u p m t).1.counts.advanced =
        storedTierCount s u (formatPeriodKey t) UsageTier.advanced ∧
      (consumeUsage s u p m t).2 = s) ∧
    ((consumeUsage s u p m t).1.allowed = true →
      storedTierCount (consumeUsage s u p m t).2 u (formatPeriodKey t)
          (resolveUsageTier (some m)) =
        storedTierCount s u (formatPeriodKey t) (resolveUsageTier (some m)) + 1 ∧
      storedTierCount (consumeUsage s u p m t).2 u (formatPeriodKey t)
          (otherTier (resolveUsageTier (some m))) =
        storedTierCount s u (formatPeriodKey t) (otherTier (resolveUsageTier (some m))) ∧
      (∀ u2 pk2, ¬(u2 = u ∧ pk2 = formatPeriodKey t) →
        (consumeUsage s u p m t).2 u2 pk2 = s u2 pk2) ∧
      (∃ c, (consumeUsage s u p m t).2 u (formatPeriodKey t) = some c ∧
        c.updatedAt = some t) ∧
      (consumeUsage s u p m t).1.remaining =
        (match (PLAN_LIMITS p).limitFor (resolveUsageTier (some m)) with
         | none => none
         | some l =>
             some (l - (storedTierCount s u (formatPeriodKey t)
               (resolveUsageTier (some m)) + 1)))) := by
  by_cases hl : limitReached ((PLAN_LIMITS p).limitFor (resolveUsageTier (some m)))
      (storedTierCount s u (formatPeriodKey t) (resolveUsageTier (some m))) = true
  · have hrej := consumeUsage_rejected s u p m t hl
    refine ⟨?_, ?_, ?_⟩
    · rw [hrej.1]
      simp only [true_iff]
      exact (limitReached_eq_true_iff _ _).1 hl
    · intro _
      exact ⟨hrej.2.2.1, hrej.2.2.2.1, hrej.2.2.2.2.1, hrej.2.1⟩
    · intro hcontr
      rw [hrej.1] at hcontr
      cases hcontr
  · have hl2 : limitReached ((PLAN_LIMITS p).limitFor (resolveUsageTier (some m)))
        (storedTierCount s u (formatPeriodKey t) (resolveUsageTier (some m))) = false := by
      simpa using hl
    have hall := consumeUsage_allowed s u p m t hl2
    refine ⟨?_, ?_, ?_⟩
    · rw [hall.1]
      simp only [Bool.true_eq_false, false_iff]
      intro hex
      exact hl ((limitReached_eq_true_iff _ _).2 hex)
    · intro hcontr
      rw [hall.1] at hcontr
      cases hcontr
    · intro _
      refine ⟨storedTierCount_after_allowed s u p m t hl2,
        storedOther_after_allowed s u p m t hl2, ?_, ?_, ?_⟩
      · intro u2 pk2 hk
        exact consumeUsage_frame s u p m t u2 pk2 hk
      · refine ⟨bumpCounter (loadOrInitCounter s u p t) (resolveUsageTier (some m))
            (storedTierCount s u (formatPeriodKey t) (resolveUsageTier (some m)) + 1) t,
            ?_, ?_⟩
        · rw [hall.2.1]
          exact SubStore.write_self _ _ _ _
        · rcases resolveUsageTier (some m) with _ | _ <;> simp [bumpCounter]
      · rw [hall.2.2.1]
        rcases hlim : (PLAN_LIMITS p).limitFor (resolveUsageTier (some m)) with _ | l
        · simp [computeRemaining]
        · rw [hlim] at hl2
          have : storedTierCount s u (formatPeriodKey t)
              (resolveUsageTier (some m)) < l := by
            by_contra hge
            rw [limitReached_true_of_ge l _ (by omega)] at hl2
            cases hl2
          simp only [computeRemaining]
          congr 1
          omega

/-- Witness for C2: the admitted branch at a fresh free-plan basic call. -/
theorem consumeUsage_single_call_spec_witness :
    (consumeUsage (fun _ _ => none) "u" PlanType.free "gpt-4o" 0).1.allowed = true ∧
    storedTierCount (consumeUsage (fun _ _ => none) "u" PlanType.free "gpt-4o" 0).2
        "u" (formatPeriodKey 0) (resolveUsageTier (some "gpt-4o")) =
      storedTierCount (fun _ _ => none) "u" (formatPeriodKey 0)
        (resolveUsageTier (some "gpt-4o")) + 1 :=
  ⟨by decide,
    ((consumeUsage_single_call_spec (fun _ _ => none) "u" PlanType.free
        "gpt-4o" 0).2.2 (by decide)).1⟩


/-- C5: K serialized consumeUsage calls against a tier with finite limit
L, starting from count 0 with K > L, yield exactly L admitted calls and
K - L rejected calls, and leave the stored count at exactly L.  The calls
are serialized because each transaction body is atomic, which is the
ordering guarantee the document store provides for a single document. -/
theorem concurrent_consume_exact_admission (p : PlanType) (tier : UsageTier)
    (L : Int) (hL : (PLAN_LIMITS p).limitFor tier = some L)
    (m : String) (hm : resolveUsageTier (some m) = tier)
    (u : String) (τ : Int) (s0 : SubStore)
    (h0 : storedTierCount s0 u (formatPeriodKey τ) tier = 0)
    (K : Nat) (hK : L.toNat < K) :
    (consumeRep u p m τ K s0).2.count true = L.toNat ∧
    (consumeRep u p m τ K s0).2.count false = K - L.toNat ∧
    storedTierCount (consumeRep u p m τ K s0).1 u (formatPeriodKey τ) tier = L := by
  subst hm
  have hL0 : 0 ≤ L := PLAN_LIMITS_nonneg p _ L hL
  obtain ⟨r, hr⟩ : ∃ r, K = L.toNat + r := ⟨K - L.toNat, by omega⟩
  subst hr
  have hall := consumeRep_all_allowed u p m τ L hL L.toNat s0 0 h0
    (by rw [Int.toNat_of_nonneg hL0]; omega)
  have hcount : storedTierCount (consumeRep u p m τ L.toNat s0).1 u
      (formatPeriodKey τ) (resolveUsageTier (some m)) = L := by
    rw [hall.2, Int.toNat_of_nonneg hL0]
    omega
  have hrej := consumeRep_all_rejected u p m τ L hL r
    (consumeRep u p m τ L.toNat s0).1 (by rw [hcount])
  rw [consumeRep_add]
  refine ⟨?_, ?_, ?_⟩
  · rw [hall.1, hrej.1]
    simp [List.count_append, List.count_replicate]
  · rw [hall.1, hrej.1]
    simp [List.count_append, List.count_replicate]
  · rw [hrej.2, hcount]

/-- Witness for C5: free plan, advanced tier (limit 0), two calls. -/
theorem concurrent_consume_exact_admission_witness :
    (PLAN_LIMITS PlanType.free).limitFor UsageTier.advanced = some 0 ∧
    resolveUsageTier (some "claude") = UsageTier.advanced ∧
    storedTierCount (fun _ _ => none) "u" (formatPeriodKey 0) UsageTier.advanced = 0 ∧
    (0 : Int).toNat < 2 ∧
    (consumeRep "u" PlanType.free "claude" 0 2 (fun _ _ => none)).2.count false =
      2 - (0 : Int).toNat :=
  ⟨by decide, by decide, by decide, by decide,
    (concurrent_consume_exact_admission PlanType.free UsageTier.advanced 0
      (by decide) "claude" (by decide) "u" 0 (fun _ _ => none) (by decide)
      2 (by decide)).2.1⟩

/-- C4: from any store with non-negative counts, every sequence of
consume, rollback and reset operations keeps all counts non-negative; a
rollback on an absent counter or on a zero count writes nothing; and M
admitted consumptions followed by N > M rollbacks of the same tier leave
the stored count at exactly 0, never negative. -/
theorem counts_nonneg_invariant (s : SubStore) (h : CountsNonneg s) :
    (∀ ops, CountsNonneg (applyOps s ops)) ∧
    (∀ u m τ w, s u (formatPeriodKey τ) = none → rollbackUsage s u m τ w = s) ∧
    (∀ u m τ w c, s u (formatPeriodKey τ) = some c →
      tierCount c (resolveUsageTier (some m)) = 0 → rollbackUsage s u m τ w = s) ∧
    (∀ (u : String) (p : PlanType) (m : String) (τ w : Int) (M N : Nat) (L : Int),
      (PLAN_LIMITS p).limitFor (resolveUsageTier (some m)) = some L →
      (M : Int) ≤ L → M < N →
      s u (formatPeriodKey τ) = none →
      storedTierCount
          (rollbackRep u m τ w N (consumeRep u p m τ M s).1) u
          (formatPeriodKey τ) (resolveUsageTier (some m)) = 0) := by
  refine ⟨fun ops => applyOps_preserves_nonneg ops s h,
    fun u m τ w hn => rollbackUsage_absent s u m τ w hn,
    fun u m τ w c hc hz => rollbackUsage_zero s u m τ w c hc hz,
    ?_⟩
  intro u p m τ w M N L hL hML hMN habs
  have h0 : storedTierCount s u (formatPeriodKey τ) (resolveUsageTier (some m)) = 0 := by
    unfold storedTierCount
    rw [habs]
  have hall := consumeRep_all_allowed u p m τ L hL M s 0 h0 (by omega)
  have hM : storedTierCount (consumeRep u p m τ M s).1 u (formatPeriodKey τ)
      (resolveUsageTier (some m)) = (M : Int) := by
    rw [hall.2]
    omega
  have := rollbackRep_count u m τ w N (consumeRep u p m τ M s).1 (M : Int) hM
    (by positivity)
  rw [this]
  omega

/-- Witness for C4: one consumption, two rollbacks, count back to 0. -/
theorem counts_nonneg_invariant_witness :
    CountsNonneg (fun _ _ => none) ∧
    (PLAN_LIMITS PlanType.free).limitFor (resolveUsageTier (some "gpt-4o")) = some 20 ∧
    ((1 : Nat) : Int) ≤ 20 ∧ (1 : Nat) < 2 ∧
    (fun (_ _ : String) => (none : Option UsageCounterDoc)) "u" (formatPeriodKey 0) = none ∧
    storedTierCount
        (rollbackRep "u" "gpt-4o" 0 0 2
          (consumeRep "u" PlanType.free "gpt-4o" 0 1 (fun _ _ => none)).1) "u"
        (formatPeriodKey 0) (resolveUsageTier (some "gpt-4o")) = 0 := by
  have hcn : CountsNonneg (fun _ _ => none) := fun _ _ c hc => by cases hc
  refine ⟨hcn, by decide, by decide, by decide, by decide, ?_⟩
  exact (counts_nonneg_invariant (fun _ _ => none) hcn).2.2.2
    "u" PlanType.free "gpt-4o" 0 0 1 2 20 (by decide) (by decide) (by decide)
    (by decide)


/-- C10 counterexample: a subcollection-layout consumeUsage call made
with no user document anywhere (empty store, free plan, advanced-tier
model claude) completes with allowed = false and does NOT create the
counter document for (user, period): the stored document is still absent
after the call. -/
theorem subcollection_consume_no_create_counterexample :
    (consumeUsage (fun _ _ => none) "u0" PlanType.free "claude" 0).1.allowed = false ∧
    (consumeUsage (fun _ _ => none) "u0" PlanType.free "claude" 0).2 "u0"
      (formatPeriodKey 0) = none := by
  constructor
  · decide
  · decide

/-- C10 (amended): in the array layout, a uid with no matching user
document makes consumeUsage and resetUsage reject with the error
User document not found for uid (no counter is created and no result
returned), while rollbackUsage silently returns the store unchanged; the
subcollection layout requires no user document: whenever the limit check
admits the call, consumeUsage creates the counter document for the
(user, period) key. -/
theorem array_layout_missing_user_spec (s : UsersStore) (u : String)
    (h : s u = none) :
    (∀ p m t, consumeUsageArray s u p m t =
      Except.error ("User document not found for uid " ++ u)) ∧
    (∀ p r t, resetUsageArray s u p r t =
      Except.error ("User document not found for uid " ++ u)) ∧
    (∀ m t w, rollbackUsageArray s u m t w = s) ∧
    (∀ (s2 : SubStore) (u2 : String) (p : PlanType) (m : String) (t : Int),
      s2 u2 (formatPeriodKey t) = none →
      limitReached ((PLAN_LIMITS p).limitFor (resolveUsageTier (some m))) 0 = false →
      (consumeUsage s2 u2 p m t).1.allowed = true ∧
      ((consumeUsage s2 u2 p m t).2 u2 (formatPeriodKey t)).isSome = true) := by
  refine ⟨?_, ?_, ?_, ?_⟩
  · intro p m t
    simp [consumeUsageArray, h]
  · intro p r t
    simp [resetUsageArray, h]
  · intro m t w
    simp [rollbackUsageArray, h]
  · intro s2 u2 p m t hs hlim
    have h0 : storedTierCount s2 u2 (formatPeriodKey t)
        (resolveUsageTier (some m)) = 0 := by
      unfold storedTierCount
      rw [hs]
    have hfalse : limitReached ((PLAN_LIMITS p).limitFor (resolveUsageTier (some m)))
        (storedTierCount s2 u2 (formatPeriodKey t) (resolveUsageTier (some m))) = false := by
      rw [h0]
      exact hlim
    have hall := consumeUsage_allowed s2 u2 p m t hfalse
    refine ⟨hall.1, ?_⟩
    rw [hall.2.1, SubStore.write_self]
    rfl

/-- Witness for the amended C10 at a concrete empty users store. -/
theorem array_layout_missing_user_spec_witness :
    (fun (_ : String) => (none : Option UserDoc)) "u0" = none ∧
    consumeUsageArray (fun _ => none) "u0" PlanType.free "gpt-4o" 0 =
      Except.error ("User document not found for uid " ++ "u0") :=
  ⟨rfl,
    (array_layout_missing_user_spec (fun _ => none) "u0" rfl).1
      PlanType.free "gpt-4o" 0⟩

end MailMates
